import Mathlib

/-!
Verification of the `trybox` crate (fallible heap allocation for `Box`)
against its specification.

The development is a shallow embedding of `src/lib.rs`:

* `Layout`, `TypeMeta`, `Info` model `core::alloc::Layout`, the static
  per-type data (`Layout::new::<T>()`, `core::any::type_name::<T>()`),
  and the crate's private `Info` struct.
* `Alloc` models the raw global allocator: a map from a layout to an
  optional address, `none` standing for a null return.
* `impTraced` is the allocation routine `imp` (src/lib.rs:96-122),
  instrumented with the list of allocator calls it makes and the number
  of heap blocks it successfully acquires; `imp`, `new`, `or_drop`
  project from it exactly as the source functions compose.
* `Error`, `ErrorWith` model the two error types; `write_info` models
  the `Display` rendering (src/lib.rs:147-165), with the external
  `number_prefix` collaborator modelled from the spec over exact
  binary-scaled numbers `n / 1024^k` (the f64 arithmetic in the source
  is exact for every size below 2^53, since dividing by 1024 only
  decrements the exponent, so the model coincides with the source for
  all such sizes).
* `structSize` is a small model of Rust's default struct layout, used to
  state the one-word bound on `Error`.
* `IoError` and `ioErrorFromError` model the `std::io::Error` adapter.
-/

namespace Trybox

/-- `core::alloc::Layout`: a (size, alignment) pair in bytes. -/
structure Layout where
  size : Nat
  align : Nat
deriving DecidableEq, Repr

/-- Rust guarantees that a `Layout`'s alignment is a power of two. -/
def Layout.valid (l : Layout) : Prop :=
  ∃ k, l.align = 2 ^ k

/-- The statically known data of a sized Rust type `T`:
`Layout::new::<T>()` and `core::any::type_name::<T>()`. -/
structure TypeMeta (T : Type) where
  layout : Layout
  name : String

/-- `Layout::for_value(&x)`: for a sized `T` this is defined by the Rust
standard library to be `Layout::new::<T>()`, independent of the value. -/
def layoutForValue {T : Type} (m : TypeMeta T) (_x : T) : Layout :=
  m.layout

/-- The crate's private `Info` struct (src/lib.rs:230-234). -/
structure Info where
  layout : Layout
  name : String
deriving DecidableEq, Repr

/-- `Indirect::info` (src/lib.rs:220-227): rebuilds `{layout, name}` from
the static data of `T`. -/
def Indirect.info {T : Type} (m : TypeMeta T) : Info :=
  { layout := m.layout, name := m.name }

/-- The raw allocator (`alloc::alloc::alloc`): given a layout it returns
an address, or `none` for a null pointer (allocation failure). -/
abbrev Alloc : Type :=
  Layout → Option Nat

/-- An owning heap handle `Box<T>`: an address together with the value
stored there. -/
structure Box (T : Type) where
  addr : Nat
  val : T
deriving DecidableEq, Repr

/-- `NonNull::<T>::dangling()`: the well-defined placeholder address for a
zero-size allocation, equal to `T`'s alignment. -/
def danglingAddr {T : Type} (m : TypeMeta T) : Nat :=
  m.layout.align

/-- The outcome of one run of the allocation routine, instrumented with
the allocator calls made and the number of heap blocks acquired. -/
structure ImpTrace (T : Type) where
  result : Except T (Box T)
  allocCalls : List Layout
  blocksAllocated : Nat
deriving Repr

/-- `imp` (src/lib.rs:96-122), instrumented.  Zero-size layouts take the
dangling-pointer path and call no allocator; otherwise the allocator is
called once, a null return hands `x` back unchanged, and a non-null
return becomes the box holding `x` (the `MaybeUninit` write). -/
def impTraced {T : Type} (a : Alloc) (m : TypeMeta T) (x : T) : ImpTrace T :=
  if (layoutForValue m x).size = 0 then
    { result := Except.ok ⟨danglingAddr m, x⟩
      allocCalls := []
      blocksAllocated := 0 }
  else
    match a (layoutForValue m x) with
    | none =>
        { result := Except.error x
          allocCalls := [layoutForValue m x]
          blocksAllocated := 0 }
    | some p =>
        { result := Except.ok ⟨p, x⟩
          allocCalls := [layoutForValue m x]
          blocksAllocated := 1 }

/-- `imp` (src/lib.rs:96-122): the returned `Result<Box<T>, T>`. -/
def imp {T : Type} (a : Alloc) (m : TypeMeta T) (x : T) : Except T (Box T) :=
  (impTraced a m x).result

/-- `ErrorWith<T>` (src/lib.rs:239): the failed object, as a public
tuple-struct field. -/
structure ErrorWith (T : Type) where
  payload : T
deriving DecidableEq, Repr

/-- `Error` (src/lib.rs:127-130): a single function pointer
`info: fn() -> Info`. -/
structure Error where
  info : Unit → Info

/-- `new` (src/lib.rs:75-80). -/
def new {T : Type} (a : Alloc) (m : TypeMeta T) (x : T) :
    Except (ErrorWith T) (Box T) :=
  match imp a m x with
  | Except.ok it => Except.ok it
  | Except.error e => Except.error (ErrorWith.mk e)

/-- `ErrorWith::info` (src/lib.rs:242-247): layout from the concrete
value, name from the static type. -/
def ErrorWith.info {T : Type} (m : TypeMeta T) (e : ErrorWith T) : Info :=
  { layout := layoutForValue m e.payload, name := m.name }

/-- `ErrorWith::without_payload` (src/lib.rs:248-250): drops the payload,
keeps only the function pointer `T::info`.  It takes no allocator: the
conversion cannot allocate. -/
def ErrorWith.without_payload {T : Type} (m : TypeMeta T) (_e : ErrorWith T) :
    Error :=
  Error.mk (fun _ => Indirect.info m)

/-- `or_drop` (src/lib.rs:88-93). -/
def or_drop {T : Type} (a : Alloc) (m : TypeMeta T) (x : T) :
    Except Error (Box T) :=
  match new a m x with
  | Except.ok it => Except.ok it
  | Except.error e => Except.error (ErrorWith.without_payload m e)

/-- `Error::layout` (src/lib.rs:187-189). -/
def Error.layout (e : Error) : Layout :=
  (e.info ()).layout

/-- `impl From<ErrorWith<T>> for Error` (src/lib.rs:265-269). -/
def Error.fromErrorWith {T : Type} (m : TypeMeta T) (e : ErrorWith T) :
    Error :=
  ErrorWith.without_payload m e

/-! ### Display rendering (src/lib.rs:141-165) -/

/-- An exact binary-scaled number with value `n / 1024 ^ k`.  The source
computes with `f64`; every intermediate value there is
`size / 1024 ^ k` for the natural `size`, which is exact in `f64`
whenever `size < 2^53`, so this representation coincides with the
source's floats on that whole range. -/
structure BinVal where
  n : Nat
  k : Nat
deriving DecidableEq, Repr

/-- Division by 1024 (exact in `f64`: the exponent decrements). -/
def BinVal.div1024 (v : BinVal) : BinVal :=
  ⟨v.n, v.k + 1⟩

/-- Rust `f64::fract(self) == 0.0` for a nonnegative value: the
fractional part is zero exactly when the denominator divides the
numerator. -/
def BinVal.fractZero (v : BinVal) : Bool :=
  v.n % 1024 ^ v.k == 0

/-- The lower-cased binary unit letters, `Prefix::lower()` of the
`number_prefix` collaborator, kibi through yobi. -/
def binUnits : List String :=
  ["ki", "mi", "gi", "ti", "pi", "ei", "zi", "yi"]

/-- Modelled from the spec: the scaling loop of the external
`number_prefix` collaborator (`format_binary_size`, spec section 1):
repeatedly divide by 1024 while the value is at least 1024 and larger
units remain, counting how many extra divisions happened. -/
def scaleLoop : BinVal → Nat → BinVal × Nat
  | v, 0 => (v, 0)
  | v, fuel + 1 =>
      if v.n < 1024 ^ (v.k + 1) then (v, 0)
      else
        let r := scaleLoop (BinVal.div1024 v) fuel
        (r.1, r.2 + 1)

/-- The outcome of binary scaling: either the bare amount (below 1024)
or an amount together with its lower-cased unit letters.  Models the
collaborator's `Standalone` and `Prefixed` cases. -/
inductive NumPre where
  | standalone (num : BinVal)
  | scaled (pre : String) (num : BinVal)
deriving DecidableEq, Repr

/-- Modelled from the spec: `NumberPrefix::binary` of the external
`number_prefix` collaborator — convert a byte count to the largest
1024-based unit, amounts under 1024 staying standalone. -/
def numPreBinary (size : Nat) : NumPre :=
  if size < 1024 then NumPre.standalone ⟨size, 0⟩
  else
    let r := scaleLoop (BinVal.div1024 ⟨size, 0⟩) 7
    NumPre.scaled (binUnits.getD r.2 "yi") r.1

/-- Round `N / D` to the nearest integer, ties to even (the rounding
Rust's fixed-precision float formatting performs on the exact value). -/
def roundHalfEvenDiv (N D : Nat) : Nat :=
  let q := N / D
  let r := N % D
  if 2 * r < D then q
  else if D < 2 * r then q + 1
  else if q % 2 = 0 then q else q + 1

/-- Left-pad with `'0'` to width `w`. -/
def padZeros (s : String) (w : Nat) : String :=
  String.mk (List.replicate (w - s.length) '0') ++ s

/-- Rust's `{num:.prec$}` formatting of the exact nonnegative value
`v.n / 1024^v.k`: round to `prec` decimal digits (ties to even) and
print with exactly `prec` digits after the point (none for
`prec = 0`). -/
def renderFixed (v : BinVal) (prec : Nat) : String :=
  let scaled := roundHalfEvenDiv (v.n * 10 ^ prec) (1024 ^ v.k)
  if prec = 0 then toString scaled
  else
    toString (scaled / 10 ^ prec) ++ "." ++
      padZeros (toString (scaled % 10 ^ prec)) prec

/-- The `(pre, precision, num)` triple computed by the match in
`write_info` (src/lib.rs:149-161).  `std` selects between the
`cfg(feature = "std")` branch (0 digits when the scaled value is an
exact integer, else 2) and the `no_std` branch (always 2 when
scaled). -/
def formatParams (std : Bool) (size : Nat) : String × Nat × BinVal :=
  match numPreBinary size with
  | NumPre.standalone num => ("", 0, num)
  | NumPre.scaled pre num =>
      (pre, if std then (if BinVal.fractZero num then 0 else 2) else 2, num)

/-- `write_info` (src/lib.rs:147-165): the full rendered message. -/
def write_info (std : Bool) (info : Info) : String :=
  let p := formatParams std info.layout.size
  "memory allocation of " ++ renderFixed p.2.2 p.2.1 ++ " " ++ p.1 ++
    "bytes (for type " ++ info.name ++ ") failed"

/-- `impl fmt::Display for Error` (src/lib.rs:141-145). -/
def Error.display (std : Bool) (e : Error) : String :=
  write_info std (e.info ())

/-- `impl<T> fmt::Display for ErrorWith<T>` (src/lib.rs:253-257). -/
def ErrorWith.display {T : Type} (std : Bool) (m : TypeMeta T)
    (e : ErrorWith T) : String :=
  write_info std (ErrorWith.info m e)

/-! ### Debug rendering (src/lib.rs:132-139 and 238-239) -/

/-- The derived `Debug` rendering of `core::alloc::Layout`. -/
def Layout.debugFmt (l : Layout) : String :=
  "Layout \x7b size: " ++ toString l.size ++ ", align: " ++
    toString l.align ++ " \x7d"

/-- Rust's `Debug` for `&str`: the string in double quotes. -/
def strDebug (s : String) : String :=
  "\"" ++ s ++ "\""

/-- `impl fmt::Debug for Error` (src/lib.rs:132-139):
`f.debug_struct("Error").field("layout", ..).field("name", ..)`. -/
def Error.debugFmt (e : Error) : String :=
  "Error \x7b layout: " ++ Layout.debugFmt (e.info ()).layout ++
    ", name: " ++ strDebug (e.info ()).name ++ " \x7d"

/-- `#[derive(Debug)] pub struct ErrorWith<T>(pub T)` (src/lib.rs:238-239):
the derived tuple-struct rendering, available exactly when `T: Debug`
(modelled by the rendering function `dbgT`). -/
def ErrorWith.debugFmt {T : Type} (dbgT : T → String) (e : ErrorWith T) :
    String :=
  "ErrorWith(" ++ dbgT e.payload ++ ")"

/-! ### Struct size model (for the one-word bound on `Error`) -/

/-- A field of a Rust struct: its size and alignment in bytes. -/
structure RustField where
  size : Nat
  align : Nat

/-- Round `off` up to the next multiple of `a`. -/
def alignUp (off a : Nat) : Nat :=
  (off + a - 1) / a * a

/-- Lay a struct's fields out in order: the running offset is aligned up
for each field, and the struct's alignment is the maximum field
alignment. -/
def structPack (fields : List RustField) : Nat × Nat :=
  fields.foldl
    (fun acc f => (alignUp acc.1 f.align + f.size, max acc.2 f.align))
    (0, 1)

/-- The size of a Rust struct: the packed extent rounded up to the
struct's alignment. -/
def structSize (fields : List RustField) : Nat :=
  alignUp (structPack fields).1 (structPack fields).2

/-- A function pointer field (`fn() -> Info`): one word in size and
alignment, where `word` is the target's word size
(`size_of::<usize>()`). -/
def fnPtrField (word : Nat) : RustField :=
  ⟨word, word⟩

/-- The fields of `Error` (src/lib.rs:127-130): the single `info`
function pointer. -/
def errorFields (word : Nat) : List RustField :=
  [fnPtrField word]

/-- `size_of::<Error>()` on a target with the given word size. -/
def size_of_Error (word : Nat) : Nat :=
  structSize (errorFields word)

/-- `size_of::<usize>()` on a target with the given word size. -/
def size_of_usize (word : Nat) : Nat :=
  word

/-! ### `std::io::Error` adapter (src/lib.rs:192-217) -/

/-- The `std::io::ErrorKind` variants relevant to the crate. -/
inductive IoErrorKind where
  | outOfMemory
  | other
deriving DecidableEq, Repr

/-- `std::io::Error`: a kind plus an optional boxed source error.
`io::Error::new(kind, e)` attaches a source, `io::Error::from(kind)`
has none. -/
structure IoError where
  kind : IoErrorKind
  source : Option Error

/-- `impl From<Error> for std::io::Error` (src/lib.rs:193-210): try to
box the `Error` itself via `or_drop` so it can be preserved as the
source; if that secondary allocation also fails, degrade to the bare
out-of-memory kind.  `em` is the static data of the `Error` type itself
(one word). -/
def ioErrorFromError (a : Alloc) (em : TypeMeta Error) (value : Error) :
    IoError :=
  match or_drop a em value with
  | Except.ok source => IoError.mk IoErrorKind.outOfMemory (some source.val)
  | Except.error _cannot_preserve => IoError.mk IoErrorKind.outOfMemory none

/-- `impl From<Error> for std::io::ErrorKind` (src/lib.rs:213-217). -/
def ioErrorKindFromError (_ : Error) : IoErrorKind :=
  IoErrorKind.outOfMemory

end Trybox

namespace Trybox

/-! ### Theorems -/

/-- Claim C1: `new(x)` either succeeds with a heap handle whose contents
are bit-identical to `x`, or fails returning `x` unchanged inside the
error, and exactly one of the two outcomes is produced per call. -/
theorem new_exclusive_outcome {T : Type} (a : Alloc) (m : TypeMeta T) (x : T) :
    ((∃ p, new a m x = Except.ok (Box.mk p x)) ∨
        new a m x = Except.error (ErrorWith.mk x)) ∧
      ¬((∃ p, new a m x = Except.ok (Box.mk p x)) ∧
        new a m x = Except.error (ErrorWith.mk x)) := by
  constructor
  · by_cases h : (layoutForValue m x).size = 0
    · exact Or.inl ⟨danglingAddr m, by simp [new, imp, impTraced, h]⟩
    · cases ha : a (layoutForValue m x) with
      | none => exact Or.inr (by simp [new, imp, impTraced, h, ha])
      | some p => exact Or.inl ⟨p, by simp [new, imp, impTraced, h, ha]⟩
  · rintro ⟨⟨p, hok⟩, herr⟩
    rw [hok] at herr
    exact Except.noConfusion herr

/-- Claim C3: for a zero-size layout the routine makes no allocator call,
always succeeds, and builds the handle from the non-null dangling
placeholder address (the type's alignment). -/
theorem zst_no_alloc_call {T : Type} (a : Alloc) (m : TypeMeta T) (x : T)
    (hz : m.layout.size = 0) (hv : m.layout.valid) :
    impTraced a m x =
        { result := Except.ok (Box.mk (danglingAddr m) x)
          allocCalls := []
          blocksAllocated := 0 } ∧
      danglingAddr m ≠ 0 := by
  constructor
  · unfold impTraced
    simp [layoutForValue, hz]
  · obtain ⟨k, hk⟩ := hv
    simp only [danglingAddr, hk]
    exact pow_ne_zero k (by decide)

/-- Witness for C3: the unit type, layout `(size 0, align 1)`, under an
allocator that fails every request. -/
theorem zst_no_alloc_call_witness :
    impTraced (fun _ => none)
        (TypeMeta.mk (Layout.mk 0 1) "()" : TypeMeta Unit) () =
        { result := Except.ok (Box.mk 1 ())
          allocCalls := []
          blocksAllocated := 0 } ∧
      danglingAddr (TypeMeta.mk (Layout.mk 0 1) "()" : TypeMeta Unit) ≠ 0 :=
  zst_no_alloc_call (fun _ => none)
    (TypeMeta.mk (Layout.mk 0 1) "()" : TypeMeta Unit) () rfl ⟨0, rfl⟩

/-- Claim C8: the allocation routine makes exactly one allocator call per
invocation (none when the layout size is zero), its only failure path is
the allocator returning null, the failure hands back the original value,
and zero heap blocks are held on the failure path.  The embedding of
`imp` is a total function: no branch panics or aborts. -/
theorem imp_alloc_call_discipline {T : Type} (a : Alloc) (m : TypeMeta T)
    (x : T) :
    (impTraced a m x).allocCalls =
        (if m.layout.size = 0 then [] else [m.layout]) ∧
      ∀ y, (impTraced a m x).result = Except.error y →
        y = x ∧ a m.layout = none ∧ (impTraced a m x).blocksAllocated = 0 := by
  by_cases h : m.layout.size = 0
  · refine ⟨by simp [impTraced, layoutForValue, h], fun y hy => ?_⟩
    simp [impTraced, layoutForValue, h] at hy
  · cases ha : a m.layout with
    | none =>
        refine ⟨by simp [impTraced, layoutForValue, h, ha], fun y hy => ?_⟩
        simp [impTraced, layoutForValue, h, ha] at hy
        simp [impTraced, layoutForValue, h, ha, hy]
    | some p =>
        refine ⟨by simp [impTraced, layoutForValue, h, ha], fun y hy => ?_⟩
        simp [impTraced, layoutForValue, h, ha] at hy

/-- Witness for C8: a 4-byte layout under an always-failing allocator;
the routine calls the allocator once, returns the value `42` unchanged,
and holds no heap block. -/
theorem imp_alloc_call_discipline_witness :
    (impTraced (fun _ => none) (TypeMeta.mk (Layout.mk 4 4) "i32")
          (42 : Nat)).allocCalls = [Layout.mk 4 4] ∧
      (42 : Nat) = 42 ∧
      (fun _ => none : Alloc) (Layout.mk 4 4) = none ∧
      (impTraced (fun _ => none) (TypeMeta.mk (Layout.mk 4 4) "i32")
          (42 : Nat)).blocksAllocated = 0 := by
  have h := imp_alloc_call_discipline (fun _ => none)
    (TypeMeta.mk (Layout.mk 4 4) "i32") (42 : Nat)
  exact ⟨h.1, h.2 42 rfl⟩

/-- Claim C6: `or_drop` behaves exactly as `new` with the failure case
mapped through `without_payload`: same heap handle on success, the
payload-less `Error` on failure. -/
theorem or_drop_eq_new_mapError {T : Type} (a : Alloc) (m : TypeMeta T)
    (x : T) :
    or_drop a m x =
      Except.mapError (ErrorWith.without_payload m) (new a m x) := by
  unfold or_drop
  cases h : new a m x <;> rfl

/-- Claim C5: `without_payload` always succeeds without allocating (its
embedding takes no allocator and is total), and the resulting `Error`
reports the same layout and type name as the original `ErrorWith<T>`:
the statically recomputed layout for `T` coincides with the layout
derived from the concrete value. -/
theorem without_payload_preserves_info {T : Type} (m : TypeMeta T)
    (e : ErrorWith T) :
    (ErrorWith.without_payload m e).info () = ErrorWith.info m e ∧
      (ErrorWith.without_payload m e).layout = (ErrorWith.info m e).layout ∧
      ((ErrorWith.without_payload m e).info ()).name =
        (ErrorWith.info m e).name :=
  ⟨rfl, rfl, rfl⟩

/-- Claim C10: the `From<ErrorWith<T>> for Error` conversion (used by
`?`-propagation) produces exactly `without_payload`: the one-word error
holding `T`'s metadata accessor. -/
theorem from_eq_without_payload {T : Type} (m : TypeMeta T)
    (e : ErrorWith T) :
    Error.fromErrorWith m e = ErrorWith.without_payload m e ∧
      (Error.fromErrorWith m e).info () = Indirect.info m :=
  ⟨rfl, rfl⟩

/-- Sizes below 1024 stay standalone: empty unit string, precision 0,
the byte count itself. -/
theorem formatParams_standalone (std : Bool) (size : Nat)
    (h : size < 1024) :
    formatParams std size = ("", 0, BinVal.mk size 0) := by
  unfold formatParams numPreBinary
  simp [h]

/-- Formatting a whole number of bytes with precision 0 is the plain
integer string. -/
theorem renderFixed_nat (n : Nat) :
    renderFixed (BinVal.mk n 0) 0 = toString n := by
  unfold renderFixed roundHalfEvenDiv
  simp [Nat.mod_one]

/-- Every entry of the binary unit table is a nonempty string. -/
theorem binUnits_getD_ne_empty (i : Nat) : binUnits.getD i "yi" ≠ "" := by
  match i with
  | 0 | 1 | 2 | 3 | 4 | 5 | 6 | 7 => decide
  | n + 8 =>
      rw [List.getD_eq_default]
      · decide
      · simp [binUnits]

/-- Sizes of at least 1024 are scaled to some unit of the table. -/
theorem numPreBinary_scaled (size : Nat) (h : 1024 ≤ size) :
    ∃ i num, numPreBinary size = NumPre.scaled (binUnits.getD i "yi") num := by
  unfold numPreBinary
  rw [if_neg (by omega)]
  exact ⟨(scaleLoop (BinVal.div1024 ⟨size, 0⟩) 7).2,
    (scaleLoop (BinVal.div1024 ⟨size, 0⟩) 7).1, rfl⟩

/-- For scaled sizes the unit string is nonempty and the precision
follows the build's policy. -/
theorem formatParams_scaled (std : Bool) (size : Nat) (h : 1024 ≤ size) :
    (formatParams std size).1 ≠ "" ∧
      (formatParams std size).2.1 =
        (if std && BinVal.fractZero (formatParams std size).2.2
          then 0 else 2) := by
  obtain ⟨i, num, hn⟩ := numPreBinary_scaled size h
  unfold formatParams
  rw [hn]
  refine ⟨binUnits_getD_ne_empty i, ?_⟩
  cases std <;> cases hf : BinVal.fractZero num <;> simp [hf]

/-- Claim C4: `Display` of both error types renders exactly
`"memory allocation of {num} {pre}bytes (for type {name}) failed"`,
where byte counts under 1024 render as plain integers with an empty
unit string and no scaling, and scaled (1024-based) values render with
2 decimal digits unless (in std builds) the scaled value is an exact
integer, which renders with 0 decimals; non-std builds always use
2 decimals when scaled. -/
theorem display_format {T : Type} (std : Bool) (e : Error) (m : TypeMeta T)
    (ew : ErrorWith T) :
    Error.display std e = write_info std (e.info ()) ∧
      ErrorWith.display std m ew = write_info std (ErrorWith.info m ew) ∧
      ∀ info : Info,
        write_info std info =
            "memory allocation of " ++
              renderFixed (formatParams std info.layout.size).2.2
                (formatParams std info.layout.size).2.1 ++ " " ++
              (formatParams std info.layout.size).1 ++
              "bytes (for type " ++ info.name ++ ") failed" ∧
          (info.layout.size < 1024 →
            formatParams std info.layout.size =
                ("", 0, BinVal.mk info.layout.size 0) ∧
              renderFixed (BinVal.mk info.layout.size 0) 0 =
                toString info.layout.size) ∧
          (1024 ≤ info.layout.size →
            (formatParams std info.layout.size).1 ≠ "" ∧
              (formatParams std info.layout.size).2.1 =
                (if std && BinVal.fractZero
                    (formatParams std info.layout.size).2.2
                  then 0 else 2)) :=
  ⟨rfl, rfl, fun info =>
    ⟨rfl,
      fun h => ⟨formatParams_standalone std _ h, renderFixed_nat _⟩,
      fun h => formatParams_scaled std _ h⟩⟩

/-- Witness for C4: the 4-byte i32 case (plain integer, no unit) and
the 2500-byte case (scaled, two decimals), matching the repository's
expected message files. -/
theorem display_format_witness :
    ErrorWith.display true
        (TypeMeta.mk (Layout.mk 2500 1) "[u8; 2500]" : TypeMeta Unit) ⟨()⟩ =
        "memory allocation of 2.44 kibytes (for type [u8; 2500]) failed" ∧
      Error.display true (Error.mk fun _ => Info.mk (Layout.mk 4 4) "i32") =
        "memory allocation of 4 bytes (for type i32) failed" ∧
      (formatParams true 2500).1 ≠ "" ∧
      (formatParams true 2500).2.1 = 2 ∧
      formatParams true 4 = ("", 0, BinVal.mk 4 0) := by
  have h := display_format (T := Unit) true
    (Error.mk fun _ => Info.mk (Layout.mk 4 4) "i32")
    (TypeMeta.mk (Layout.mk 2500 1) "[u8; 2500]") ⟨()⟩
  obtain ⟨h1, h2, h3⟩ := h
  have hsc := (h3 (Info.mk (Layout.mk 2500 1) "[u8; 2500]")).2.2 (by decide)
  have hst := (h3 (Info.mk (Layout.mk 4 4) "i32")).2.1 (by decide)
  exact ⟨h2.trans (by decide), h1.trans (by decide), hsc.1,
    hsc.2.trans (by decide), hst.1⟩

/-- Aligning offset 0 is a no-op. -/
theorem alignUp_zero (a : Nat) (h : 0 < a) : alignUp 0 a = 0 := by
  unfold alignUp
  rw [Nat.div_eq_of_lt (by omega)]
  exact Nat.zero_mul a

/-- An already aligned offset is unchanged. -/
theorem alignUp_self (a : Nat) (h : 0 < a) : alignUp a a = a := by
  unfold alignUp
  have h1 : (a + a - 1) / a = 1 :=
    Nat.div_eq_of_lt_le (by omega) (by omega)
  rw [h1]
  omega

/-- Claim C2: the payload-less `Error` — a struct holding exactly one
function pointer — occupies exactly one machine word: its size equals
`size_of::<usize>()` on every target word size. -/
theorem error_size_one_word (word : Nat) (h : 0 < word) :
    size_of_Error word = size_of_usize word := by
  unfold size_of_Error size_of_usize structSize structPack errorFields
    fnPtrField
  simp only [List.foldl_cons, List.foldl_nil]
  rw [alignUp_zero word h]
  simp only [Nat.zero_add]
  rw [show max 1 word = word by omega]
  exact alignUp_self word h

/-- Witness for C2: a 64-bit target (8-byte words). -/
theorem error_size_one_word_witness :
    0 < 8 ∧ size_of_Error 8 = size_of_usize 8 :=
  ⟨by decide, error_size_one_word 8 (by decide)⟩

/-- Claim C7: converting an `Error` into a platform I/O error always
yields an out-of-memory-kind error; when the secondary allocation that
would hold the chained source fails, the result is still the
out-of-memory kind with no source.  The kind-only conversion is
out-of-memory unconditionally.  The embedding is total: no panic
path. -/
theorem io_error_always_oom (a : Alloc) (em : TypeMeta Error) (v : Error) :
    (ioErrorFromError a em v).kind = IoErrorKind.outOfMemory ∧
      (∀ e, or_drop a em v = Except.error e →
        ioErrorFromError a em v =
          IoError.mk IoErrorKind.outOfMemory none) ∧
      ioErrorKindFromError v = IoErrorKind.outOfMemory := by
  refine ⟨?_, fun e he => ?_, rfl⟩
  · unfold ioErrorFromError
    cases or_drop a em v <;> rfl
  · unfold ioErrorFromError
    rw [he]

/-- Witness for C7: an always-failing allocator; the secondary
allocation fails and the conversion still yields the bare out-of-memory
kind with no source. -/
theorem io_error_always_oom_witness :
    (ioErrorFromError (fun _ => none)
          (TypeMeta.mk (Layout.mk 8 8) "trybox::Error")
          (Error.mk fun _ => Info.mk (Layout.mk 4 4) "i32")).kind =
        IoErrorKind.outOfMemory ∧
      ioErrorFromError (fun _ => none)
          (TypeMeta.mk (Layout.mk 8 8) "trybox::Error")
          (Error.mk fun _ => Info.mk (Layout.mk 4 4) "i32") =
        IoError.mk IoErrorKind.outOfMemory none := by
  have h := io_error_always_oom (fun _ => none)
    (TypeMeta.mk (Layout.mk 8 8) "trybox::Error")
    (Error.mk fun _ => Info.mk (Layout.mk 4 4) "i32")
  exact ⟨h.1, h.2.1 _ rfl⟩

/-- Counterexample to claim C9: for the unit-typed payload, the derived
`Debug` of `ErrorWith<()>` is exactly the tuple rendering
`"ErrorWith(())"`.  It shows the payload even though the payload type is
the unit type, and it contains no `layout` or `name` field at all, so
it is not a structured rendering of `{layout, name}`. -/
theorem errorWith_debug_shows_payload_only :
    ErrorWith.debugFmt (fun _ => "()") (ErrorWith.mk ()) = "ErrorWith(())" ∧
      ¬("layout".data <:+: "ErrorWith(())".data) ∧
      ¬("name".data <:+: "ErrorWith(())".data) :=
  ⟨rfl, by decide, by decide⟩

/-- Claim C9 (amended): the payload-less `Error`'s `Debug` is the
structured rendering of `{layout, name}` only; `ErrorWith<T>`'s `Debug`
is the derived tuple-struct rendering showing only the payload, present
for every payload type (including unit) whenever the payload supports
structured rendering. -/
theorem debug_rendering {T : Type} (e : Error) (dbgT : T → String)
    (ew : ErrorWith T) :
    Error.debugFmt e =
        "Error \x7b layout: " ++ Layout.debugFmt (e.info ()).layout ++
          ", name: " ++ strDebug (e.info ()).name ++ " \x7d" ∧
      ErrorWith.debugFmt dbgT ew = "ErrorWith(" ++ dbgT ew.payload ++ ")" :=
  ⟨rfl, rfl⟩

end Trybox
